import Mathlib

/-!
Verification development for the DayZ blackmarket rotator
(`blackmarket_rotator_main.py`).  The Python source is shallowly embedded:
Python `str` values become Lean `String`, JSON values become the inductive
type `J` (with JSON numbers as exact rationals), dictionaries become
association lists in insertion order, and file I/O becomes explicit
`Option`-valued inputs (`none` models a read that raises).  Exceptions are
modelled with `Except`.
-/

namespace RotatingBM

/-! ## Python string primitives -/

/-- The characters Python's `str.strip` / `str.split()` treat as whitespace. -/
def pyIsSpace (c : Char) : Bool :=
  c = ' ' || c = '\t' || c = '\n' || c = '\r' || c = Char.ofNat 11 || c = Char.ofNat 12

/-- Python `str.rstrip()`: remove trailing whitespace. -/
def pyRstrip (s : String) : String :=
  String.mk ((s.data.reverse.dropWhile pyIsSpace).reverse)

/-- Python `str.lstrip()`: remove leading whitespace. -/
def pyLstrip (s : String) : String :=
  String.mk (s.data.dropWhile pyIsSpace)

/-- Python `str.strip()`: remove whitespace on both ends. -/
def pyStrip (s : String) : String :=
  pyRstrip (pyLstrip s)

/-- `strNonBlank s` is the truthiness of Python `s.strip()`:
`true` iff `s` contains a non-whitespace character. -/
def strNonBlank (s : String) : Bool :=
  s.data.any (fun c => !(pyIsSpace c))

/-- `listIsInfix n h` decides whether `n` occurs contiguously inside `h`. -/
def listIsInfix (needle hay : List Char) : Bool :=
  (List.range (hay.length + 1)).any (fun i => List.isPrefixOf needle (hay.drop i))

/-- Python's substring test `needle in hay`. -/
def strIn (needle hay : String) : Bool :=
  listIsInfix needle.data hay.data

/-- Python `str.split()` with no argument: split on whitespace runs,
dropping empty pieces. -/
def pySplitWs (s : String) : List String :=
  (s.split pyIsSpace).filter (fun t => t ≠ "")

/-! ## Python number parsing (`int(...)`, `float(...)`) -/

/-- Numeric value of a decimal digit list, most significant first. -/
def digitsToNat (l : List Char) : Nat :=
  l.foldl (fun a c => a * 10 + (c.toNat - 48)) 0

/-- Model of Python `int(s)` (base 10): optional surrounding whitespace,
optional sign, then a nonempty run of digits.  (Underscore separators are
not modelled.) -/
def pyInt10 (s : String) : Option Int :=
  let cs := (pyStrip s).data
  let core : List Char → Option Int := fun l =>
    if l ≠ [] && l.all Char.isDigit then some (Int.ofNat (digitsToNat l)) else none
  match cs with
  | '+' :: r => core r
  | '-' :: r => (core r).map Neg.neg
  | r => core r

/-- Value of a hexadecimal digit, if any. -/
def hexDigitVal (c : Char) : Option Nat :=
  if c.isDigit then some (c.toNat - 48)
  else if 'a' ≤ c && c ≤ 'f' then some (c.toNat - 87)
  else if 'A' ≤ c && c ≤ 'F' then some (c.toNat - 55)
  else none

/-- Model of Python `int(s, 16)`: optional whitespace, optional sign,
optional `0x`/`0X` prefix, then a nonempty run of hex digits. -/
def pyInt16 (s : String) : Option Int :=
  let core : List Char → Option Int := fun l =>
    let l := match l with
      | '0' :: 'x' :: r => r
      | '0' :: 'X' :: r => r
      | r => r
    if l ≠ [] && l.all (fun c => (hexDigitVal c).isSome) then
      some (Int.ofNat (l.foldl (fun a c => a * 16 + (hexDigitVal c).getD 0) 0))
    else none
  let cs := (pyStrip s).data
  match cs with
  | '+' :: r => core r
  | '-' :: r => (core r).map Neg.neg
  | r => core r

/-- Exponent part of a float literal: empty, or `e`/`E` with optional sign
and a nonempty digit run.  Returns the mantissa scaled by the exponent. -/
def parseFloatExp (m : ℚ) : List Char → Option ℚ
  | [] => some m
  | 'e' :: r => parseFloatExpDigits m r
  | 'E' :: r => parseFloatExpDigits m r
  | _ => none
where
  parseFloatExpDigits (m : ℚ) (r : List Char) : Option ℚ :=
    let signed : List Char → Option Int := fun l =>
      if l ≠ [] && l.all Char.isDigit then some (Int.ofNat (digitsToNat l)) else none
    match r with
    | '+' :: d => (signed d).map (fun e => m * (10 : ℚ) ^ e)
    | '-' :: d => (signed d).map (fun e => m * (10 : ℚ) ^ (-e))
    | d => (signed d).map (fun e => m * (10 : ℚ) ^ e)

/-- Unsigned float literal: `digits`, `digits.digits`, `.digits` or
`digits.`, optionally followed by an exponent. -/
def parseFloatCore (cs : List Char) : Option ℚ :=
  let (ip, r1) := cs.span Char.isDigit
  match r1 with
  | '.' :: r2 =>
      let (fp, r3) := r2.span Char.isDigit
      if ip = [] && fp = [] then none
      else
        parseFloatExp ((digitsToNat ip : ℚ) + (digitsToNat fp : ℚ) / (10 : ℚ) ^ fp.length) r3
  | _ => if ip = [] then none else parseFloatExp (digitsToNat ip : ℚ) r1

/-- Model of Python `float(s)` restricted to finite decimal literals
(`inf`/`nan` are treated as unparseable; JSON exports never contain them).
The result is the exact rational value of the literal. -/
def pyFloat (s : String) : Option ℚ :=
  let cs := (pyStrip s).data
  match cs with
  | '+' :: r => parseFloatCore r
  | '-' :: r => (parseFloatCore r).map Neg.neg
  | r => parseFloatCore r

/-! ## JSON values and Python dictionaries -/

/-- A JSON value as produced by `json.load`.  Numbers are exact rationals;
Python `True`/`False`/`None` are `bool`/`null`.  Objects are association
lists in insertion order with distinct keys. -/
inductive J where
  | null : J
  | bool (b : Bool) : J
  | num (q : ℚ) : J
  | str (s : String) : J
  | arr (elts : List J) : J
  | obj (fields : List (String × J)) : J

/-- A Python dict with string keys, in insertion order. -/
abbrev PyDict := List (String × J)

/-- Python `key in d` for a dict. -/
def dictHasKey (d : PyDict) (k : String) : Bool :=
  d.any (fun p => p.1 = k)

/-- Python `d[key]` / `d.get(key)`: value of the first matching key. -/
def dictLookup : PyDict → String → Option J
  | [], _ => none
  | (k0, v) :: t, k => if k0 = k then some v else dictLookup t k

/-- Python `d.get(key, default)`. -/
def dictGetD (d : PyDict) (k : String) (v : J) : J :=
  (dictLookup d k).getD v

/-- Python `d[key] = v`: replace the value in place if the key exists
(keeping its position), else append. -/
def dictSet : PyDict → String → J → PyDict
  | [], k, v => [(k, v)]
  | (k0, v0) :: t, k, v =>
      if k0 = k then (k0, v) :: t else (k0, v0) :: dictSet t k v

/-- Python truthiness of a JSON value (`if not x`). -/
def pyTruthy : J → Bool
  | J.null => false
  | J.bool b => b
  | J.num q => q ≠ 0
  | J.str s => s ≠ ""
  | J.arr l => !l.isEmpty
  | J.obj l => !l.isEmpty

/-- `isinstance(x, dict)`. -/
def isObjJ : J → Bool
  | J.obj _ => true
  | _ => false

/-- `isinstance(x, list)`. -/
def isArrJ : J → Bool
  | J.arr _ => true
  | _ => false

/-- `isinstance(x, str)`. -/
def isStrJ : J → Bool
  | J.str _ => true
  | _ => false

/-- `isinstance(x, bool)`. -/
def isBoolJ : J → Bool
  | J.bool _ => true
  | _ => false

/-- `isinstance(x, (int, float))`.  Python `bool` is a subclass of `int`,
so booleans count as numbers. -/
def isNumJ : J → Bool
  | J.num _ => true
  | J.bool _ => true
  | _ => false

/-- Numeric value used in comparisons (`True == 1`, `False == 0`). -/
def jNumVal : J → ℚ
  | J.num q => q
  | J.bool b => if b then 1 else 0
  | _ => 0

/-- Rendering of a JSON value by Python `str()`, as used inside f-string
error messages.  Rendering of nested containers is abbreviated; the
validator only ever renders scalar `name` fields in practice. -/
def jRender : J → String
  | J.null => "None"
  | J.bool true => "True"
  | J.bool false => "False"
  | J.str s => s
  | J.num q => if q.den = 1 then toString q.num else toString q
  | J.arr _ => "[...]"
  | J.obj _ => "{...}"

/-! ## Positions (`config['positions']` entries, after validation) -/

/-- A configured position.  Vending fields are always present in a valid
configuration; vehicle fields and rotations are optional (`none` models a
missing dictionary key, whose access raises `KeyError`). -/
structure Position where
  name : String
  vendingClassname : String
  vendingCoords : ℚ × ℚ × ℚ
  vendingRotation : Option (ℚ × ℚ × ℚ) := none
  vehicleClassname : Option String := none
  vehicleCoords : Option (ℚ × ℚ × ℚ) := none
  vehicleRotation : Option (ℚ × ℚ × ℚ) := none
  img_path : Option String := none
deriving DecidableEq

/-! ## MapStateReader: `get_current_position_from_map` -/

/-- A map line is the vending line iff it contains `.Blackmarket|` but not
`.Blackmarket_Vehicles|` (source line 400). -/
def isVendingLine (line : String) : Bool :=
  strIn ".Blackmarket|" line && !strIn ".Blackmarket_Vehicles|" line

/-- A map line is the vehicle-trader line iff it contains
`.Blackmarket_Vehicles|` (source line 481). -/
def isVehicleLine (line : String) : Bool :=
  strIn ".Blackmarket_Vehicles|" line

/-- The coordinate-extraction loop of `get_current_position_from_map`
(source lines 398-407).  A vending-marker line is split on `|`; if it has
at least two sections and the second splits into at least three
whitespace-separated fields, the first three are parsed with `float` and
the scan stops.  A malformed marker line is skipped.  `Except.error`
models a `ValueError` escaping from `float(...)` (caught by the outer
handler); `Except.ok none` means no coordinates were found. -/
def extract_vending_coords : List String → Except Unit (Option (ℚ × ℚ × ℚ))
  | [] => Except.ok none
  | line :: rest =>
      if isVendingLine line then
        let parts := (pyStrip line).splitOn "|"
        if parts.length ≥ 2 then
          let coordParts := pySplitWs (parts.getD 1 "")
          if coordParts.length ≥ 3 then
            match pyFloat (coordParts.getD 0 ""), pyFloat (coordParts.getD 1 ""),
                pyFloat (coordParts.getD 2 "") with
            | some a, some b, some c => Except.ok (some (a, b, c))
            | _, _, _ => Except.error ()
          else extract_vending_coords rest
        else extract_vending_coords rest
      else extract_vending_coords rest

/-- The per-axis tolerance test of source lines 417-419: every axis of the
extracted triple differs from the position's vending coordinates by
strictly less than `0.1` in absolute value. -/
def coords_close (a b : ℚ × ℚ × ℚ) : Bool :=
  |a.1 - b.1| < 1/10 && |a.2.1 - b.2.1| < 1/10 && |a.2.2 - b.2.2| < 1/10

/-- The matching loop of source lines 414-421: return the index of the
first position whose vending coordinates are within tolerance.  `i` is the
index of the head of the remaining list. -/
def match_position_index (c : ℚ × ℚ × ℚ) : List Position → Nat → Option Nat
  | [], _ => none
  | p :: rest, i =>
      if coords_close c p.vendingCoords then some i
      else match_position_index c rest (i + 1)

/-- `BlackmarketRotator.get_current_position_from_map` (source lines
391-431).  The map file is `none` when `open` raises; any exception inside
the `try` block (including `float` parse failures) yields the default
index `0`, as do a missing vending line and an unmatched coordinate
triple. -/
def get_current_position_from_map :
    Option (List String) → List Position → Nat
  | none, _ => 0
  | some lines, positions =>
      match extract_vending_coords lines with
      | Except.error _ => 0
      | Except.ok none => 0
      | Except.ok (some c) => (match_position_index c positions 0).getD 0

/-! ## RotationEngine: `get_next_position` and the file renders -/

/-- The circular advance of source line 439: `(current_index + 1) % len`. -/
def nextIndex (i n : Nat) : Nat := (i + 1) % n

/-- `BlackmarketRotator.get_next_position` (source lines 433-441). -/
def get_next_position (positions : List Position) (current_index : Nat) :
    Option Position :=
  if positions.isEmpty then none
  else positions.get? (nextIndex current_index positions.length)

/-- Rendering of a rational as it appears inside a formatted map line.
(The Python source interpolates floats via `repr`; the exact digit string
is irrelevant to every claim, which only depend on marker tokens.) -/
def fmtQ (q : ℚ) : String :=
  if q.den = 1 then toString q.num else toString q

/-- `"{x} {y} {z}"` for a coordinate or rotation triple. -/
def fmtTriple (t : ℚ × ℚ × ℚ) : String :=
  fmtQ t.1 ++ " " ++ fmtQ t.2.1 ++ " " ++ fmtQ t.2.2

/-- The freshly formatted vending line of source line 452. -/
def mkVendingLine (p : Position) : String :=
  p.vendingClassname ++ ".Blackmarket|" ++ fmtTriple p.vendingCoords ++ "|" ++
    fmtTriple (p.vendingRotation.getD (0, 0, 0))

/-- The freshly formatted vehicle line of source line 460.  Accessing a
missing vehicle field raises `KeyError` (source lines 457-458), modelled
as `Except.error`. -/
def mkVehicleLine (p : Position) : Except String String :=
  match p.vehicleCoords, p.vehicleClassname with
  | some c, some cn =>
      Except.ok (cn ++ ".Blackmarket_Vehicles|" ++ fmtTriple c ++ "|" ++
        fmtTriple (p.vehicleRotation.getD (0, 0, 0)))
  | _, _ => Except.error "KeyError"

/-- Truthiness of `new_vehicle_line` in `self.vehicles_enabled and
new_vehicle_line` (source line 483): non-`None` and nonempty. -/
def optStrTruthy : Option String → Bool
  | none => false
  | some s => s ≠ ""

/-- The line-rewriting loop of `update_map_file` (source lines 470-492):
returns the rewritten lines together with the `vending_updated` and
`vehicle_updated` flags.  Empty (whitespace-only) lines are skipped;
vending-marker lines are replaced by `nv`; vehicle-marker lines are
replaced by `nveh` when vehicles are enabled, else dropped. -/
def map_update_loop (vehEnabled : Bool) (nv : String) (nveh : Option String) :
    List String → List String × Bool × Bool
  | [] => ([], false, false)
  | line :: rest =>
      let r := map_update_loop vehEnabled nv nveh rest
      if strNonBlank line then
        if isVendingLine line then (nv :: r.1, true, r.2.2)
        else if isVehicleLine line then
          if vehEnabled && optStrTruthy nveh then
            ((nveh.getD "") :: r.1, r.2.1, true)
          else (r.1, r.2.1, r.2.2)
        else (line :: r.1, r.2.1, r.2.2)
      else r

/-- The full line transformation of `update_map_file` (source lines
462-501): every line is `rstrip`ped, the loop above runs, and missing
marker lines are appended at the end (vending first). -/
def update_map_lines (vehEnabled : Bool) (nv : String) (nveh : Option String)
    (lines : List String) : List String :=
  let r := map_update_loop vehEnabled nv nveh (lines.map pyRstrip)
  r.1 ++ (if !r.2.1 then [nv] else []) ++
    (if vehEnabled && !r.2.2 && optStrTruthy nveh then [nveh.getD ""] else [])

/-- `BlackmarketRotator.update_map_file` (source lines 443-506) as a
function of the position and the lines read from the existing map file.
`Except.error` models the `KeyError` of a vehicle-enabled run on a
position lacking vehicle fields. -/
def update_map_file (vehEnabled : Bool) (p : Position) (lines : List String) :
    Except String (List String) := do
  let nveh ← if vehEnabled then (mkVehicleLine p).map some else Except.ok none
  Except.ok (update_map_lines vehEnabled (mkVendingLine p) nveh lines)

/-- The final file content of source line 504: lines joined with `\n` plus
a trailing newline. -/
def map_content (outLines : List String) : String :=
  String.intercalate "\n" outLines ++ "\n"

/-- The new `Position` value written into the trader-zone document. -/
def coordsToJ (t : ℚ × ℚ × ℚ) : J :=
  J.arr [J.num t.1, J.num t.2.1, J.num t.2.2]

/-- `BlackmarketRotator.update_trader_zone_file` (source lines 508-525) as
a function of the parsed trader-zone document: only the `Position` key is
overwritten with the new vending coordinates. -/
def update_trader_zone_file (p : Position) (trader_zone : PyDict) : PyDict :=
  dictSet trader_zone "Position" (coordsToJ p.vendingCoords)

/-! ## `update_files`, notification and `rotate` -/

/-- The per-server state a single `rotate` call observes: the validated
position list, the recovered index, the derived vehicle flag, the two
target files (`none` models a read that raises) and the webhook URL. -/
structure RotateEnv where
  positions : List Position
  current_index : Nat
  vehicles_enabled : Bool
  mapFile : Option (List String)
  traderZone : Option PyDict
  webhook_url : String

/-- `BlackmarketRotator.update_files` (source lines 527-547): returns the
success flag together with the contents written to the map file and the
trader-zone file (`none` = that file was never written).  Any exception
(unreadable file, missing vehicle fields) is caught and yields `false`;
a trader-zone failure still leaves the map file written, since the map
write precedes the trader-zone read. -/
def update_files (env : RotateEnv) (p : Position) :
    Bool × Option (List String) × Option PyDict :=
  match (if env.vehicles_enabled then (mkVehicleLine p).map some else Except.ok none) with
  | Except.error _ => (false, none, none)
  | Except.ok nveh =>
      match env.mapFile with
      | none => (false, none, none)
      | some lines =>
          let content := update_map_lines env.vehicles_enabled (mkVendingLine p) nveh lines
          match env.traderZone with
          | none => (false, some content, none)
          | some tz => (true, some content, some (update_trader_zone_file p tz))

/-- `BlackmarketRotator.send_discord_notification` (source lines 549-553):
with a falsy (empty) webhook URL the method returns immediately and no
HTTP request is attempted.  The result records whether a request was
attempted. -/
def send_discord_notification (webhook_url : String) : Bool :=
  if webhook_url = "" then false else true

/-- Observable outcome of one `rotate` call. -/
structure RotateResult where
  success : Bool
  mapWrite : Option (List String)
  traderWrite : Option PyDict
  httpAttempted : Bool

/-- `BlackmarketRotator.rotate` (source lines 626-654). -/
def rotate (env : RotateEnv) : RotateResult :=
  if env.positions.isEmpty then ⟨false, none, none, false⟩
  else if env.positions.length = 1 then ⟨true, none, none, false⟩
  else
    match get_next_position env.positions env.current_index with
    | none => ⟨false, none, none, false⟩
    | some next =>
        let r := update_files env next
        if r.1 then ⟨true, r.2.1, r.2.2, send_discord_notification env.webhook_url⟩
        else ⟨false, r.2.1, r.2.2, false⟩

/-! ## MultiServerCoordinator: `rotate_all_servers` -/

/-- One observable step of `rotate_all_servers`: a `time.sleep(delay)` or
one `rotate_server(sid)` call with its boolean outcome. -/
inductive MSEvent where
  | sleep (delay : J) : MSEvent
  | server (sid : String) (ok : Bool) : MSEvent

/-- The enabled-server filter of source line 705, in declared order. -/
def enabled_servers (servers : List (String × PyDict)) : List String :=
  (servers.filter (fun p => pyTruthy (dictGetD p.2 "enabled" (J.bool true)))).map (·.1)

/-- The iteration of source lines 716-722: a sleep event before every
server after the first (`i > 0`), then the per-server rotation. -/
def ms_loop (outcome : String → Bool) (delay : J) :
    Nat → List String → List MSEvent
  | _, [] => []
  | i, s :: rest =>
      (if i > 0 then [MSEvent.sleep delay] else []) ++
        MSEvent.server s (outcome s) :: ms_loop outcome delay (i + 1) rest

/-- `rotate_all_servers` (source lines 696-727) as a function of the
parsed `servers` mapping, the `scheduler_settings` mapping and the
per-server outcome of `rotate_server` (which catches its own exceptions
and returns a boolean).  Returns the overall result together with the
event trace. -/
def rotate_all_servers (servers : List (String × PyDict))
    (scheduler_settings : PyDict) (outcome : String → Bool) :
    Bool × List MSEvent :=
  let enabled := enabled_servers servers
  if enabled.isEmpty then (false, [])
  else
    let delay := dictGetD scheduler_settings "server_rotation_delay_seconds" (J.num 5)
    (decide (enabled.countP outcome = enabled.length),
      ms_loop outcome delay 0 enabled)

/-! ## ConfigValidator

Each `_validate_*` method is embedded as a function returning the pair of
error and warning messages it appends (in append order); `validate_config`
concatenates them in call order, which reproduces the shared accumulator.
Methods that can raise on wrongly-typed input return `Except String`,
whose `error` models an exception escaping the validator.  `fsExists`
abstracts `os.path.exists`. -/

/-- `_validate_top_level_structure` (source lines 57-68). -/
def validate_top_level_structure (config : PyDict) : List String × List String :=
  ((["servers", "global_settings", "scheduler_settings", "positions"].flatMap
    fun key =>
      match dictLookup config key with
      | none => ["Missing required top-level key: '" ++ key ++ "'"]
      | some v =>
          if isObjJ v || isArrJ v then []
          else if key = "positions" then ["'" ++ key ++ "' must be a list"]
          else ["'" ++ key ++ "' must be an object"]), [])

/-- posixpath `os.path.dirname`: everything up to the last `/`, with
trailing slashes removed unless the result is all slashes. -/
def dirnamePosix (p : String) : String :=
  let head := ((p.data.reverse.dropWhile (fun c => c ≠ '/')).reverse)
  if head.all (fun c => c = '/') then String.mk head
  else String.mk ((head.reverse.dropWhile (fun c => c = '/')).reverse)

/-- `_validate_file_path` (source lines 280-293). -/
def validate_file_path (v : J) (desc : String) (fsExists : String → Bool) :
    List String × List String :=
  match v with
  | J.str s =>
      if !strNonBlank s then ([desc ++ " path cannot be empty"], [])
      else
        let dir := dirnamePosix s
        if dir ≠ "" && !fsExists dir then
          ([], [desc ++ " directory does not exist: " ++ dir])
        else ([], [])
  | _ => ([desc ++ " path must be a string"], [])

/-- Simplified model of `urllib.parse.urlparse`, returning the scheme and
network-location components.  The scheme is the prefix before the first
`:` when it starts with a letter and uses only scheme characters; the
netloc follows a `//`. -/
def urlparseSchemeNetloc (s : String) : String × String :=
  let isSchemeChar : Char → Bool := fun c =>
    c.isAlpha || c.isDigit || c = '+' || c = '-' || c = '.'
  let (pre, rest) := s.data.span (fun c => c ≠ ':')
  let (scheme, tail) :=
    match rest with
    | ':' :: r =>
        if pre ≠ [] && (pre.headD 'a').isAlpha && pre.all isSchemeChar then
          (String.mk pre, r)
        else ("", s.data)
    | _ => ("", s.data)
  let netloc :=
    match tail with
    | '/' :: '/' :: r =>
        String.mk (r.takeWhile (fun c => c ≠ '/' && c ≠ '?' && c ≠ '#'))
    | _ => ""
  (scheme, netloc)

/-- `_validate_discord_webhook` (source lines 295-317).  A missing scheme
or netloc raises `ValueError("Invalid URL format")`, caught by the
method's own handler and turned into an error message. -/
def validate_discord_webhook (v : J) (desc : String) :
    List String × List String :=
  match v with
  | J.str s =>
      if !strNonBlank s then
        ([], [desc ++ " has empty Discord webhook URL - notifications will be disabled"])
      else
        let sn := urlparseSchemeNetloc s
        if sn.1 = "" || sn.2 = "" then
          ([desc ++ " webhook URL is invalid: Invalid URL format"], [])
        else
          ([], (if !(strIn "discord.com" sn.2 || strIn "discordapp.com" sn.2) then
                  [desc ++ " webhook URL doesn't appear to be a Discord URL"]
                else []) ++
               (if !strIn "/api/webhooks/" s then
                  [desc ++ " URL doesn't appear to be a webhook URL"]
                else []))
  | _ => ([desc ++ " Discord webhook URL must be a string"], [])

/-- The per-server body of `_validate_servers` (source lines 77-103):
errors, warnings, and whether this server counts as enabled.  A non-dict
configuration is reported and skipped (`continue`), so it is not counted
as enabled. -/
def server_entry_checks (fsExists : String → Bool) (sid : String) (sc : J) :
    List String × List String × Bool :=
  match sc with
  | J.obj d =>
      let e1 := ["name", "blackmarket_map_path", "blackmarket_trader_zone_path"].flatMap
        fun f =>
          match dictLookup d f with
          | none => ["Server '" ++ sid ++ "' missing required field: '" ++ f ++ "'"]
          | some (J.str s) =>
              if strNonBlank s then []
              else ["Server '" ++ sid ++ "' field '" ++ f ++ "' must be a non-empty string"]
          | some _ => ["Server '" ++ sid ++ "' field '" ++ f ++ "' must be a non-empty string"]
      let r2 := match dictLookup d "blackmarket_map_path" with
        | some v => validate_file_path v ("Server '" ++ sid ++ "' map file") fsExists
        | none => ([], [])
      let r3 := match dictLookup d "blackmarket_trader_zone_path" with
        | some v => validate_file_path v ("Server '" ++ sid ++ "' trader zone file") fsExists
        | none => ([], [])
      let r4 := match dictLookup d "discord_webhook_url" with
        | some v => validate_discord_webhook v ("Server '" ++ sid ++ "'")
        | none => ([], [])
      (e1 ++ r2.1 ++ r3.1 ++ r4.1, r2.2 ++ r3.2 ++ r4.2,
        pyTruthy (dictGetD d "enabled" (J.bool true)))
  | _ => (["Server '" ++ sid ++ "' configuration must be an object"], [], false)

/-- The dict branch of `_validate_servers` (source lines 76-106). -/
def servers_checks (items : List (String × J)) (fsExists : String → Bool) :
    List String × List String :=
  let per := items.map (fun p => server_entry_checks fsExists p.1 p.2)
  (per.flatMap (·.1),
    per.flatMap (·.2.1) ++
      (if per.countP (·.2.2) = 0 then
        ["No servers are enabled - scheduler will have nothing to do"]
      else []))

/-- `_validate_servers` (source lines 70-106).  A falsy argument is
reported as "no servers"; a truthy non-dict argument crashes at
`servers.items()` with `AttributeError`, which nothing catches. -/
def validate_servers (servers : J) (fsExists : String → Bool) :
    Except String (List String × List String) :=
  if !pyTruthy servers then
    Except.ok (["At least one server must be configured"], [])
  else
    match servers with
    | J.obj items => Except.ok (servers_checks items fsExists)
    | J.arr _ => Except.error "AttributeError: 'list' object has no attribute 'items'"
    | J.str _ => Except.error "AttributeError: 'str' object has no attribute 'items'"
    | J.num _ => Except.error "AttributeError: 'int' object has no attribute 'items'"
    | J.bool _ => Except.error "AttributeError: 'bool' object has no attribute 'items'"
    | J.null => Except.error "unreachable: None is falsy"

/-- The dict branch of `_validate_global_settings` (source lines 108-129). -/
def global_settings_checks (gs : PyDict) : List String × List String :=
  let r1 : List String × List String :=
    match dictLookup gs "discord_username" with
    | none => ([], ["No discord_username specified, using default"])
    | some (J.str _) => ([], [])
    | some _ => (["discord_username must be a string"], [])
  let r2 : List String × List String :=
    match dictLookup gs "discord_embed_color" with
    | none => ([], ["No discord_embed_color specified, using default"])
    | some (J.str c) =>
        if !(c.startsWith "0x" || c.startsWith "#") then
          (["discord_embed_color must start with '0x' or '#'"], [])
        else
          match pyInt16 (c.replace "#" "0x") with
          | some _ => ([], [])
          | none => (["discord_embed_color is not a valid hex color"], [])
    | some _ => (["discord_embed_color must be a string"], [])
  (r1.1 ++ r2.1, r1.2 ++ r2.2)

/-- Membership of a string among the elements of a Python list
(`'key' in some_list`): true iff some element is that very string. -/
def jListHasStr (l : List J) (k : String) : Bool :=
  l.any fun j => match j with | J.str t => t = k | _ => false

/-- `_validate_global_settings` (source lines 108-129) on an arbitrary
value.  On a list or string, `'key' in x` degrades to element/substring
membership and a hit then crashes at the string subscript; on a
non-container, `in` itself raises `TypeError`. -/
def validate_global_settings (gs : J) : Except String (List String × List String) :=
  match gs with
  | J.obj d => Except.ok (global_settings_checks d)
  | J.arr l =>
      if jListHasStr l "discord_username" || jListHasStr l "discord_embed_color" then
        Except.error "TypeError: list indices must be integers or slices, not str"
      else
        Except.ok ([], ["No discord_username specified, using default",
          "No discord_embed_color specified, using default"])
  | J.str s =>
      if strIn "discord_username" s || strIn "discord_embed_color" s then
        Except.error "TypeError: string indices must be integers"
      else
        Except.ok ([], ["No discord_username specified, using default",
          "No discord_embed_color specified, using default"])
  | _ => Except.error "TypeError: argument is not iterable"

/-- The `{e}` tail of a failed `rotation_times` entry (source line 157):
empty for the bare `ValueError()`, the `int()` message for a parse
failure, or the explicit range message. -/
def rotation_time_err (i : Nat) (s tail : String) : String :=
  "rotation_times[" ++ toString i ++ "] '" ++ s ++
    "' is not a valid time format (HH:MM): " ++ tail

/-- The per-entry time check of source lines 138-157. -/
def rotation_time_check (i : Nat) (t : J) : List String :=
  match t with
  | J.str s =>
      let parts := s.splitOn ":"
      if parts.length ≠ 2 then [rotation_time_err i s ""]
      else
        match pyInt10 (parts.getD 0 "") with
        | none => [rotation_time_err i s
            ("invalid literal for int() with base 10: '" ++ parts.getD 0 "" ++ "'")]
        | some h =>
            match pyInt10 (parts.getD 1 "") with
            | none => [rotation_time_err i s
                ("invalid literal for int() with base 10: '" ++ parts.getD 1 "" ++ "'")]
            | some m =>
                if !(0 ≤ h && h ≤ 23) then [rotation_time_err i s "Hour must be 0-23"]
                else if !(0 ≤ m && m ≤ 59) then [rotation_time_err i s "Minute must be 0-59"]
                else []
  | _ => ["rotation_times[" ++ toString i ++ "] must be a string"]

/-- One numeric-bounds check of source lines 160-170. -/
def numeric_setting_check (ss : PyDict) (key : String) (lo hi : ℚ) (msg : String) :
    List String :=
  match dictLookup ss key with
  | none => []
  | some v =>
      if !isNumJ v then [key ++ " must be a number"]
      else if !(lo ≤ jNumVal v && jNumVal v ≤ hi) then [msg]
      else []

/-- The dict branch of `_validate_scheduler_settings` (source lines
131-183). -/
def scheduler_settings_checks (ss : PyDict) : List String × List String :=
  let e1 := match dictLookup ss "rotation_times" with
    | none => []
    | some (J.arr l) => (l.enum.flatMap fun p => rotation_time_check p.1 p.2)
    | some _ => ["rotation_times must be a list"]
  let e2 := numeric_setting_check ss "check_interval_seconds" 1 3600
    "Check interval must be between 1 and 3600 seconds"
  let e3 := numeric_setting_check ss "server_rotation_delay_seconds" 0 300
    "Server rotation delay must be between 0 and 300 seconds"
  let e4 := ["enabled", "rotate_all_servers"].flatMap fun key =>
    match dictLookup ss key with
    | none => []
    | some v => if isBoolJ v then [] else [key ++ " must be a boolean (true/false)"]
  let e5 := match dictLookup ss "log_file" with
    | none => []
    | some (J.str s) => if strNonBlank s then [] else ["log_file cannot be empty"]
    | some _ => ["log_file must be a string"]
  (e1 ++ e2 ++ e3 ++ e4 ++ e5, [])

/-- The keys `_validate_scheduler_settings` tests with `in`. -/
def schedulerKeys : List String :=
  ["rotation_times", "check_interval_seconds", "server_rotation_delay_seconds",
    "enabled", "rotate_all_servers", "log_file"]

/-- `_validate_scheduler_settings` (source lines 131-183) on an arbitrary
value, with the same degraded `in`/subscript semantics as for
`global_settings`. -/
def validate_scheduler_settings (ss : J) : Except String (List String × List String) :=
  match ss with
  | J.obj d => Except.ok (scheduler_settings_checks d)
  | J.arr l =>
      if schedulerKeys.any (jListHasStr l) then
        Except.error "TypeError: list indices must be integers or slices, not str"
      else Except.ok ([], [])
  | J.str s =>
      if schedulerKeys.any (fun k => strIn k s) then
        Except.error "TypeError: string indices must be integers"
      else Except.ok ([], [])
  | _ => Except.error "TypeError: argument is not iterable"

/-- Whether a position entry carries any vehicle field (source lines
196-199); non-dict entries are skipped by the comprehension filter. -/
def hasVehicleData : J → Bool
  | J.obj d =>
      dictHasKey d "Blackmarket_Vehicle_Classname" ||
        dictHasKey d "Blackmarket_Vehicle_Coordinates"
  | _ => false

/-- `_validate_coordinates` (source lines 266-278). -/
def coordinate_checks (v : J) (fieldName : String) : List String :=
  match v with
  | J.arr l =>
      if l.length ≠ 3 then [fieldName ++ " must have exactly 3 values [X, Y, Z]"]
      else l.enum.flatMap fun p =>
        if isNumJ p.2 then []
        else [fieldName ++ "[" ++ toString p.1 ++ "] must be a number"]
  | _ => [fieldName ++ " must be a list"]

/-- The missing-required-field message of source line 225, using
`position.get('name', 'unnamed')`. -/
def position_missing_msg (i : Nat) (d : PyDict) (field : String) : String :=
  "Position " ++ toString i ++ " ('" ++ jRender (dictGetD d "name" (J.str "unnamed")) ++
    "') missing required field: '" ++ field ++ "'"

/-- The per-position body of `_validate_positions` (source lines 204-260). -/
def position_entry_checks (vehReq : Bool) (fsExists : String → Bool)
    (i : Nat) (p : J) : List String × List String :=
  match p with
  | J.obj d =>
      let reqFields := ["name", "Blackmarket_Vending_Classname",
          "Blackmarket_Vending_Coordinates"] ++
        (if vehReq then ["Blackmarket_Vehicle_Classname",
          "Blackmarket_Vehicle_Coordinates"] else [])
      let e1 := reqFields.flatMap fun f =>
        if dictHasKey d f then [] else [position_missing_msg i d f]
      let coordFields := ["Blackmarket_Vending_Coordinates"] ++
        (if vehReq then ["Blackmarket_Vehicle_Coordinates"] else [])
      let e2 := coordFields.flatMap fun f =>
        match dictLookup d f with
        | some v => coordinate_checks v ("Position " ++ toString i ++ " " ++ f)
        | none => []
      let rotFields := ["Blackmarket_Vending_Rotation"] ++
        (if vehReq then ["Blackmarket_Vehicle_Rotation"] else [])
      let e3 := rotFields.flatMap fun f =>
        match dictLookup d f with
        | some v => coordinate_checks v ("Position " ++ toString i ++ " " ++ f)
        | none => []
      let cnFields := ["Blackmarket_Vending_Classname"] ++
        (if vehReq then ["Blackmarket_Vehicle_Classname"] else [])
      let e4 := cnFields.flatMap fun f =>
        match dictLookup d f with
        | none => []
        | some (J.str s) =>
            if strNonBlank s then []
            else ["Position " ++ toString i ++ " " ++ f ++ " must be a non-empty string"]
        | some _ => ["Position " ++ toString i ++ " " ++ f ++ " must be a non-empty string"]
      let r5 : List String × List String :=
        match dictLookup d "img_path" with
        | none => ([], [])
        | some (J.str s) =>
            if s ≠ "" && !fsExists s then
              ([], ["Position " ++ toString i ++ " image file not found: " ++ s])
            else ([], [])
        | some _ => (["Position " ++ toString i ++ " img_path must be a string"], [])
      (e1 ++ e2 ++ e3 ++ e4 ++ r5.1, r5.2)
  | _ => (["Position " ++ toString i ++ " must be an object"], [])

/-- `_validate_positions` (source lines 185-264).  The `isinstance(...,
list)` guard precedes any iteration, so this method never raises: a falsy
argument and a truthy non-list argument are both reported as errors. -/
def validate_positions (positions : J) (fsExists : String → Bool) :
    List String × List String :=
  if !pyTruthy positions then (["At least one position must be configured"], [])
  else
    match positions with
    | J.arr ps =>
        let vehReq := ps.any hasVehicleData
        let per := ps.enum.map fun p => position_entry_checks vehReq fsExists p.1 p.2
        (per.flatMap (·.1),
          per.flatMap (·.2) ++
            (if !vehReq then
              ["No vehicle trader data found in positions - vehicle trader functionality will be disabled"]
            else []))
    | _ => (["positions must be a list"], [])

/-- Outcome of `ConfigValidator.validate_config`: `ok` returns `True`
(possibly with warnings), `invalid` raises the aggregated `ValueError`,
and `crash` is an exception the validator does not expect or handle. -/
inductive ValidateOutcome where
  | ok (warnings : List String) : ValidateOutcome
  | invalid (errors warnings : List String) : ValidateOutcome
  | crash (msg : String) : ValidateOutcome

/-- The section dispatch of `validate_config` (source lines 27-41):
each present section is validated in order, accumulating errors and
warnings; an exception in a section validator propagates. -/
def validate_sections (config : PyDict) (fsExists : String → Bool) :
    Except String (List String × List String) :=
  let r0 := validate_top_level_structure config
  match (match dictLookup config "servers" with
         | some s => validate_servers s fsExists
         | none => Except.ok ([], [])) with
  | Except.error m => Except.error m
  | Except.ok r1 =>
      match (match dictLookup config "global_settings" with
             | some g => validate_global_settings g
             | none => Except.ok ([], [])) with
      | Except.error m => Except.error m
      | Except.ok r2 =>
          match (match dictLookup config "scheduler_settings" with
                 | some s => validate_scheduler_settings s
                 | none => Except.ok ([], [])) with
          | Except.error m => Except.error m
          | Except.ok r3 =>
              let r4 := match dictLookup config "positions" with
                | some p => validate_positions p fsExists
                | none => ([], [])
              Except.ok (r0.1 ++ r1.1 ++ r2.1 ++ r3.1 ++ r4.1,
                r0.2 ++ r1.2 ++ r2.2 ++ r3.2 ++ r4.2)

/-- `ConfigValidator.validate_config` (source lines 22-55) on a document
that parsed to a mapping. -/
def validate_config (config : PyDict) (fsExists : String → Bool) :
    ValidateOutcome :=
  match validate_sections config fsExists with
  | Except.error m => ValidateOutcome.crash m
  | Except.ok r => if r.1.isEmpty then ValidateOutcome.ok r.2
      else ValidateOutcome.invalid r.1 r.2

/-! ## Auxiliary definitions used by the statements -/

/-- A map line unrelated to the rotator: it contains neither the vending
marker nor the vehicle marker. -/
def isUnrelatedLine (l : String) : Bool :=
  !strIn ".Blackmarket|" l && !strIn ".Blackmarket_Vehicles|" l

/-- A configuration document whose four top-level sections are present
with the correct container kinds. -/
def mkConfig (srv gs ss : PyDict) (ps : List J) : PyDict :=
  [("servers", J.obj srv), ("global_settings", J.obj gs),
   ("scheduler_settings", J.obj ss), ("positions", J.arr ps)]

/-- A minimal vending-only position, used for concrete witnesses. -/
def samplePosition (q : ℚ) : Position :=
  { name := "P", vendingClassname := "V", vendingCoords := (q, 0, 0) }

/-! # Theorems -/

/-! ## Generic lemmas about the embedded operations -/

theorem nextIndex_iterate (n : Nat) (hn : 0 < n) :
    ∀ (k i : Nat), i < n → (fun j => nextIndex j n)^[k] i = (i + k) % n := by
  intro k
  induction k with
  | zero => intro i hi; simpa using (Nat.mod_eq_of_lt hi).symm
  | succ k ih =>
      intro i hi
      rw [Function.iterate_succ_apply]
      have h1 : nextIndex i n = (i + 1) % n := rfl
      rw [h1, ih ((i + 1) % n) (Nat.mod_lt _ hn), Nat.mod_add_mod]
      have h2 : i + 1 + k = i + (k + 1) := by omega
      rw [h2]

theorem dictSet_lookup_ne (k k' : String) (v : J) (h : k' ≠ k) :
    ∀ d : PyDict, dictLookup (dictSet d k v) k' = dictLookup d k' := by
  intro d
  induction d with
  | nil => simp [dictSet, dictLookup, Ne.symm h]
  | cons e t ih =>
      by_cases he : e.1 = k
      · simp [dictSet, he, dictLookup, Ne.symm h]
      · simp [dictSet, he, dictLookup, ih]

theorem dictSet_lookup_eq (k : String) (v : J) :
    ∀ d : PyDict, dictLookup (dictSet d k v) k = some v := by
  intro d
  induction d with
  | nil => simp [dictSet, dictLookup]
  | cons e t ih =>
      by_cases he : e.1 = k
      · simp [dictSet, he, dictLookup]
      · simp [dictSet, he, dictLookup, ih]

theorem get_next_position_isSome (ps : List Position) (i : Nat) (h : ps ≠ []) :
    ∃ p, get_next_position ps i = some p := by
  have hn : 0 < ps.length := List.length_pos.mpr h
  have hlt : nextIndex i ps.length < ps.length := Nat.mod_lt _ hn
  have hie : ps.isEmpty = false := by
    cases ps with
    | nil => exact absurd rfl h
    | cons a t => rfl
  refine ⟨ps.get ⟨nextIndex i ps.length, hlt⟩, ?_⟩
  simp [get_next_position, hie, List.get?_eq_get hlt]

/-! ## Claim C1: circular rotation -/

/-- Claim C1: for every position list of length `N ≥ 1` and every current
index `i < N`, `get_next_position` yields the position at index
`(i + 1) % N`; iterating the advance `N` times returns to `i`, and the `N`
iterates visit every index exactly once (they are a permutation of
`range N`). -/
theorem c1_rotation_is_cyclic (ps : List Position) (i : Nat)
    (hne : ps ≠ []) (hi : i < ps.length) :
    get_next_position ps i = ps.get? ((i + 1) % ps.length) ∧
    (fun j => nextIndex j ps.length)^[ps.length] i = i ∧
    ((List.range ps.length).map
        fun k => (fun j => nextIndex j ps.length)^[k] i).Perm
      (List.range ps.length) := by
  have hn : 0 < ps.length := List.length_pos.mpr hne
  have hie : ps.isEmpty = false := by
    cases ps with
    | nil => exact absurd rfl hne
    | cons a t => rfl
  refine ⟨by simp [get_next_position, nextIndex, hie], ?_, ?_⟩
  · rw [nextIndex_iterate _ hn _ _ hi, Nat.add_mod_right, Nat.mod_eq_of_lt hi]
  · have hmap : ((List.range ps.length).map
        fun k => (fun j => nextIndex j ps.length)^[k] i) =
        (List.range ps.length).map (fun k => (i + k) % ps.length) :=
      List.map_congr_left (fun k _ => nextIndex_iterate _ hn k i hi)
    rw [hmap]
    have hnd : ((List.range ps.length).map
        (fun k => (i + k) % ps.length)).Nodup := by
      refine List.Nodup.map_on ?_ (List.nodup_range _)
      intro x hx y hy hxy
      rw [List.mem_range] at hx hy
      have hc : x ≡ y [MOD ps.length] :=
        Nat.ModEq.add_left_cancel' i hxy
      rwa [Nat.ModEq, Nat.mod_eq_of_lt hx, Nat.mod_eq_of_lt hy] at hc
    have hsub : ((List.range ps.length).map
        (fun k => (i + k) % ps.length)) ⊆ List.range ps.length := by
      intro a ha
      rw [List.mem_map] at ha
      obtain ⟨k, _, rfl⟩ := ha
      exact List.mem_range.mpr (Nat.mod_lt _ hn)
    exact (List.subperm_of_subset hnd hsub).perm_of_length_le (by simp)

/-- Concrete instance of C1 at a three-position list and index 1. -/
theorem c1_rotation_is_cyclic_witness :
    get_next_position [samplePosition 1, samplePosition 2, samplePosition 3] 1 =
      [samplePosition 1, samplePosition 2, samplePosition 3].get?
        ((1 + 1) % [samplePosition 1, samplePosition 2, samplePosition 3].length) ∧
    (fun j => nextIndex j [samplePosition 1, samplePosition 2,
        samplePosition 3].length)^[[samplePosition 1, samplePosition 2,
        samplePosition 3].length] 1 = 1 ∧
    ((List.range [samplePosition 1, samplePosition 2,
        samplePosition 3].length).map
      fun k => (fun j => nextIndex j [samplePosition 1, samplePosition 2,
        samplePosition 3].length)^[k] 1).Perm
      (List.range [samplePosition 1, samplePosition 2, samplePosition 3].length) :=
  c1_rotation_is_cyclic [samplePosition 1, samplePosition 2, samplePosition 3] 1
    (by simp) (by simp)

/-! ## Claim C3: trader-zone render is a surgical field update -/

/-- Claim C3: for every trader-zone document and every position,
`update_trader_zone_file` maps every key other than `Position` to its
original value and maps `Position` exactly to the new vending
coordinates. -/
theorem c3_trader_zone_surgical (tz : PyDict) (p : Position) (k : String)
    (hk : k ≠ "Position") :
    dictLookup (update_trader_zone_file p tz) k = dictLookup tz k ∧
    dictLookup (update_trader_zone_file p tz) "Position" =
      some (coordsToJ p.vendingCoords) :=
  ⟨dictSet_lookup_ne "Position" k (coordsToJ p.vendingCoords) hk tz,
    dictSet_lookup_eq "Position" (coordsToJ p.vendingCoords) tz⟩

/-- Concrete instance of C3 on a document with operator-tuned keys. -/
theorem c3_trader_zone_surgical_witness :
    dictLookup (update_trader_zone_file (samplePosition 7)
        [("Position", J.arr [J.num 0, J.num 0, J.num 0]), ("Stock", J.num 5)])
      "Stock" =
      dictLookup [("Position", J.arr [J.num 0, J.num 0, J.num 0]),
        ("Stock", J.num 5)] "Stock" ∧
    dictLookup (update_trader_zone_file (samplePosition 7)
        [("Position", J.arr [J.num 0, J.num 0, J.num 0]), ("Stock", J.num 5)])
      "Position" = some (coordsToJ (samplePosition 7).vendingCoords) :=
  c3_trader_zone_surgical
    [("Position", J.arr [J.num 0, J.num 0, J.num 0]), ("Stock", J.num 5)]
    (samplePosition 7) "Stock" (by decide)

/-! ## Claim C9: single-position rotation is a successful no-op -/

/-- Claim C9: with exactly one configured position, `rotate` reports
success, writes neither file, and attempts no notification. -/
theorem c9_single_position_noop (env : RotateEnv)
    (h : env.positions.length = 1) :
    (rotate env).success = true ∧ (rotate env).mapWrite = none ∧
    (rotate env).traderWrite = none ∧ (rotate env).httpAttempted = false := by
  have hie : env.positions.isEmpty = false := by
    cases hp : env.positions with
    | nil => rw [hp] at h; simp at h
    | cons a t => rfl
  simp [rotate, hie, h]

/-- Concrete instance of C9. -/
theorem c9_single_position_noop_witness :
    (rotate (RotateEnv.mk [samplePosition 1] 0 false none none "")).success = true ∧
    (rotate (RotateEnv.mk [samplePosition 1] 0 false none none "")).mapWrite = none ∧
    (rotate (RotateEnv.mk [samplePosition 1] 0 false none none "")).traderWrite = none ∧
    (rotate (RotateEnv.mk [samplePosition 1] 0 false none none "")).httpAttempted = false :=
  c9_single_position_noop _ rfl

/-! ## Claim C8: empty webhook URL skips notification, not an error -/

/-- Claim C8: when no webhook URL is configured (the empty string, which
Python treats as falsy), `rotate` never attempts an HTTP call, and it
still reports success whenever the file writes go through (readable map
and trader-zone files, and complete vehicle fields whenever vehicles are
enabled). -/
theorem c8_empty_webhook_skipped (env : RotateEnv) (hurl : env.webhook_url = "") :
    (rotate env).httpAttempted = false ∧
    (env.positions ≠ [] →
      env.mapFile.isSome = true →
      env.traderZone.isSome = true →
      (∀ p, get_next_position env.positions env.current_index = some p →
        env.vehicles_enabled = true →
        p.vehicleCoords.isSome = true ∧ p.vehicleClassname.isSome = true) →
      (rotate env).success = true) := by
  have hs : send_discord_notification env.webhook_url = false := by
    simp [send_discord_notification, hurl]
  constructor
  · unfold rotate
    split
    · rfl
    · split
      · rfl
      · cases hnp : get_next_position env.positions env.current_index with
        | none => rfl
        | some p => by_cases hu : (update_files env p).1 = true <;> simp [hu, hs]
  · intro hne hmap htz hveh
    have hie : env.positions.isEmpty = false := by
      cases hp : env.positions with
      | nil => exact absurd hp hne
      | cons a t => rfl
    obtain ⟨p, hp⟩ := get_next_position_isSome env.positions env.current_index hne
    obtain ⟨lines, hl⟩ := Option.isSome_iff_exists.mp hmap
    obtain ⟨tz, ht⟩ := Option.isSome_iff_exists.mp htz
    have hup : (update_files env p).1 = true := by
      unfold update_files
      cases hv : env.vehicles_enabled with
      | false => simp [hl, ht]
      | true =>
          obtain ⟨hc, hcn⟩ := hveh p hp hv
          obtain ⟨c, hc'⟩ := Option.isSome_iff_exists.mp hc
          obtain ⟨cn, hcn'⟩ := Option.isSome_iff_exists.mp hcn
          simp [mkVehicleLine, Except.map, hc', hcn', hl, ht]
    unfold rotate
    by_cases h1 : env.positions.length = 1
    · simp [hie, h1]
    · simp [hie, h1, hp, hup]

/-- Concrete instance of C8: two positions, readable files, empty webhook
URL; the rotation succeeds and no HTTP call is attempted. -/
theorem c8_empty_webhook_skipped_witness :
    (rotate (RotateEnv.mk [samplePosition 1, samplePosition 2] 0 false
        (some ["x"]) (some [("Stock", J.num 1)]) "")).httpAttempted = false ∧
    (rotate (RotateEnv.mk [samplePosition 1, samplePosition 2] 0 false
        (some ["x"]) (some [("Stock", J.num 1)]) "")).success = true := by
  have h := c8_empty_webhook_skipped
    (RotateEnv.mk [samplePosition 1, samplePosition 2] 0 false
      (some ["x"]) (some [("Stock", J.num 1)]) "") rfl
  exact ⟨h.1, h.2 (by simp) rfl rfl (fun p _ hv => absurd hv (by decide))⟩

/-! ## Claim C10: multi-server rotation -/

theorem ms_loop_pos (outcome : String → Bool) (delay : J) :
    ∀ (rest : List String) (i : Nat), 0 < i →
      ms_loop outcome delay i rest =
        rest.flatMap
          (fun s => [MSEvent.sleep delay, MSEvent.server s (outcome s)]) := by
  intro rest
  induction rest with
  | nil => intro i _; rfl
  | cons s t ih =>
      intro i hi
      have hgt : (i > 0) = True := by simp [hi]
      simp only [ms_loop, hgt, if_true, List.flatMap_cons]
      rw [ih (i + 1) (by omega)]
      rfl

/-- Claim C10: with at least one enabled server, `rotate_all_servers`
processes exactly the enabled servers in declared order, emits a sleep of
the configured delay before every server after the first, keeps going
regardless of individual outcomes, and reports overall success iff the
per-server success count equals the number of enabled servers. -/
theorem c10_multi_server (servers : List (String × PyDict)) (ss : PyDict)
    (outcome : String → Bool) (s0 : String) (rest : List String)
    (h : enabled_servers servers = s0 :: rest) :
    (rotate_all_servers servers ss outcome).2 =
      MSEvent.server s0 (outcome s0) ::
        rest.flatMap (fun s =>
          [MSEvent.sleep (dictGetD ss "server_rotation_delay_seconds" (J.num 5)),
           MSEvent.server s (outcome s)]) ∧
    ((rotate_all_servers servers ss outcome).1 = true ↔
      (enabled_servers servers).countP outcome =
        (enabled_servers servers).length) := by
  unfold rotate_all_servers
  rw [h]
  simp only [List.isEmpty_cons, if_false, Bool.false_eq_true]
  constructor
  · show ms_loop outcome _ 0 (s0 :: rest) = _
    simp only [ms_loop, gt_iff_lt, Nat.lt_irrefl, if_false, List.nil_append]
    rw [ms_loop_pos outcome _ rest 1 (by omega)]
  · simp

/-- Concrete instance of C10: three servers, one disabled, mixed
outcomes. -/
theorem c10_multi_server_witness :
    (rotate_all_servers
        [("a", []), ("b", [("enabled", J.bool false)]), ("c", [])]
        [("server_rotation_delay_seconds", J.num 10)]
        (fun s => s == "a")).2 =
      MSEvent.server "a" true ::
        ["c"].flatMap (fun s =>
          [MSEvent.sleep (dictGetD [("server_rotation_delay_seconds", J.num 10)]
            "server_rotation_delay_seconds" (J.num 5)),
           MSEvent.server s ((fun s => s == "a") s)]) ∧
    ((rotate_all_servers
        [("a", []), ("b", [("enabled", J.bool false)]), ("c", [])]
        [("server_rotation_delay_seconds", J.num 10)]
        (fun s => s == "a")).1 = true ↔
      (enabled_servers
        [("a", []), ("b", [("enabled", J.bool false)]), ("c", [])]).countP
          (fun s => s == "a") =
        (enabled_servers
          [("a", []), ("b", [("enabled", J.bool false)]), ("c", [])]).length) := by
  have h := c10_multi_server
    [("a", []), ("b", [("enabled", J.bool false)]), ("c", [])]
    [("server_rotation_delay_seconds", J.num 10)]
    (fun s => s == "a") "a" ["c"] (by rfl)
  simpa using h

/-! ## Claim C4: tolerant first-match coordinate matching -/

theorem match_position_index_shift (c : ℚ × ℚ × ℚ) :
    ∀ (ps : List Position) (s : Nat),
      match_position_index c ps (s + 1) =
        (match_position_index c ps s).map (· + 1) := by
  intro ps
  induction ps with
  | nil => intro s; rfl
  | cons p t ih =>
      intro s
      by_cases hc : coords_close c p.vendingCoords = true
      · simp [match_position_index, hc]
      · simp only [match_position_index, hc, if_false, Bool.not_eq_true] at *
        simp only [match_position_index, hc, Bool.false_eq_true, if_false]
        exact ih (s + 1)

theorem match_position_index_spec (c : ℚ × ℚ × ℚ) :
    ∀ (ps : List Position) (i : Nat),
      match_position_index c ps 0 = some i ↔
        ∃ p, ps.get? i = some p ∧ coords_close c p.vendingCoords = true ∧
          ∀ j q, j < i → ps.get? j = some q →
            coords_close c q.vendingCoords = false := by
  intro ps
  induction ps with
  | nil => intro i; simp [match_position_index]
  | cons p t ih =>
      intro i
      by_cases hc : coords_close c p.vendingCoords = true
      · simp only [match_position_index, hc, if_true]
        constructor
        · intro h
          obtain rfl : (0 : Nat) = i := by injection h
          exact ⟨p, rfl, hc, fun j q hj _ => absurd hj (Nat.not_lt_zero j)⟩
        · rintro ⟨q, hq, hqc, hall⟩
          cases i with
          | zero => rfl
          | succ n =>
              have := hall 0 p (Nat.succ_pos n) rfl
              rw [hc] at this
              exact absurd this (by simp)
      · have hcf : coords_close c p.vendingCoords = false :=
          Bool.not_eq_true _ |>.mp hc
        simp only [match_position_index, hcf, Bool.false_eq_true, if_false]
        rw [match_position_index_shift c t 0]
        constructor
        · intro h
          rw [Option.map_eq_some'] at h
          obtain ⟨i', hi', rfl⟩ := h
          obtain ⟨q, hq, hqc, hall⟩ := (ih i').mp hi'
          refine ⟨q, by simpa using hq, hqc, ?_⟩
          intro j r hj hr
          cases j with
          | zero =>
              have hrp : p = r := by simpa using hr
              rw [← hrp]
              exact hcf
          | succ j' =>
              exact hall j' r (by omega) (by simpa using hr)
        · rintro ⟨q, hq, hqc, hall⟩
          cases i with
          | zero =>
              have hpq : p = q := by simpa using hq
              rw [← hpq] at hqc
              rw [hqc] at hcf
              exact absurd hcf (by simp)
          | succ i' =>
              have hrec : match_position_index c t 0 = some i' :=
                (ih i').mpr ⟨q, by simpa using hq, hqc,
                  fun j r hj hr => hall (j + 1) r (by omega) (by simpa using hr)⟩
              simp [hrec]

/-- Claim C4: for every extracted coordinate triple and position list, the
state reader's matching step returns index `i` iff position `i` is within
the per-axis `< 0.1` tolerance on all three axes and every earlier
position is not; a position off by `≥ 0.1` on some axis is never the
returned match; and `get_current_position_from_map` returns exactly that
first matching index. -/
theorem c4_tolerant_matching (c : ℚ × ℚ × ℚ) (ps : List Position) :
    (∀ i, match_position_index c ps 0 = some i ↔
      ∃ p, ps.get? i = some p ∧ coords_close c p.vendingCoords = true ∧
        ∀ j q, j < i → ps.get? j = some q →
          coords_close c q.vendingCoords = false) ∧
    (∀ i p, ps.get? i = some p → coords_close c p.vendingCoords = false →
      match_position_index c ps 0 ≠ some i) ∧
    (∀ lines i, extract_vending_coords lines = Except.ok (some c) →
      match_position_index c ps 0 = some i →
      get_current_position_from_map (some lines) ps = i) := by
  refine ⟨match_position_index_spec c ps, ?_, ?_⟩
  · intro i p hp hpf h
    obtain ⟨q, hq, hqc, _⟩ := (match_position_index_spec c ps i).mp h
    rw [hp] at hq
    obtain rfl : p = q := by injection hq
    rw [hqc] at hpf
    exact absurd hpf (by simp)
  · intro lines i hev hm
    simp only [get_current_position_from_map, hev, hm, Option.getD_some]

/-- Concrete instance of C4: an extracted triple within tolerance of the
first position is matched to index 0, also through the full reader. -/
theorem c4_tolerant_matching_witness :
    match_position_index (1/20, 0, 0) [samplePosition 0] 0 = some 0 ∧
    get_current_position_from_map (some ["V.Blackmarket|0.05 0 0|0 0 0"])
      [samplePosition 0] = 0 := by
  have h := c4_tolerant_matching (1/20, 0, 0) [samplePosition 0]
  have hm : match_position_index (1/20, 0, 0) [samplePosition 0] 0 = some 0 :=
    (h.1 0).mpr ⟨samplePosition 0, rfl, by with_unfolding_all decide,
      fun j q hj _ => absurd hj (Nat.not_lt_zero j)⟩
  exact ⟨hm, h.2.2 ["V.Blackmarket|0.05 0 0|0 0 0"] 0 (by with_unfolding_all rfl) hm⟩

/-! ## Claim C5: inconclusive detection defaults to index 0 -/

theorem extract_no_marker :
    ∀ lines : List String, (∀ l ∈ lines, isVendingLine l = false) →
      extract_vending_coords lines = Except.ok none := by
  intro lines
  induction lines with
  | nil => intro _; rfl
  | cons l t ih =>
      intro h
      have hl : isVendingLine l = false := h l (List.mem_cons_self l t)
      simp only [extract_vending_coords, hl, Bool.false_eq_true, if_false]
      exact ih (fun x hx => h x (List.mem_cons_of_mem l hx))

theorem match_position_index_none (c : ℚ × ℚ × ℚ) :
    ∀ (ps : List Position) (s : Nat),
      (∀ p ∈ ps, coords_close c p.vendingCoords = false) →
      match_position_index c ps s = none := by
  intro ps
  induction ps with
  | nil => intro s _; rfl
  | cons p t ih =>
      intro s h
      have hp : coords_close c p.vendingCoords = false :=
        h p (List.mem_cons_self p t)
      simp only [match_position_index, hp, Bool.false_eq_true, if_false]
      exact ih (s + 1) (fun x hx => h x (List.mem_cons_of_mem p hx))

/-- Claim C5: whenever detection is inconclusive — the map file is missing
or unreadable (`none`), no line carries the vending marker, a `float`
parse fails inside the scan (`Except.error`), or the extracted triple
matches no configured position — `get_current_position_from_map` returns
index 0.  (The embedded reader is a total function: every exception path
of the source is caught by its `try`/`except` and lands in one of these
cases, never a fatal error.) -/
theorem c5_inconclusive_defaults_to_zero (ps : List Position) :
    get_current_position_from_map none ps = 0 ∧
    (∀ lines, (∀ l ∈ lines, isVendingLine l = false) →
      get_current_position_from_map (some lines) ps = 0) ∧
    (∀ lines, extract_vending_coords lines = Except.error () →
      get_current_position_from_map (some lines) ps = 0) ∧
    (∀ lines c, extract_vending_coords lines = Except.ok (some c) →
      (∀ p ∈ ps, coords_close c p.vendingCoords = false) →
      get_current_position_from_map (some lines) ps = 0) := by
  refine ⟨rfl, ?_, ?_, ?_⟩
  · intro lines h
    simp only [get_current_position_from_map, extract_no_marker lines h]
  · intro lines h
    simp only [get_current_position_from_map, h]
  · intro lines c hev h
    simp only [get_current_position_from_map, hev,
      match_position_index_none c ps 0 h, Option.getD_none]

/-- Concrete instances of C5: a missing file, a file with no marker line,
a marker line whose coordinate parse raises, and an unmatched triple all
yield index 0. -/
theorem c5_inconclusive_defaults_to_zero_witness :
    get_current_position_from_map none [samplePosition 0] = 0 ∧
    get_current_position_from_map (some ["junk line"]) [samplePosition 0] = 0 ∧
    get_current_position_from_map (some ["V.Blackmarket|x y z|0 0 0"])
      [samplePosition 0] = 0 ∧
    get_current_position_from_map (some ["V.Blackmarket|50 0 0|0 0 0"])
      [samplePosition 0] = 0 := by
  have h := c5_inconclusive_defaults_to_zero [samplePosition 0]
  exact ⟨h.1,
    h.2.1 ["junk line"] (by decide),
    h.2.2.1 ["V.Blackmarket|x y z|0 0 0"] (by with_unfolding_all rfl),
    h.2.2.2 ["V.Blackmarket|50 0 0|0 0 0"] (50, 0, 0) (by with_unfolding_all rfl)
      (by with_unfolding_all decide)⟩

/-! ## Claim C2: map render frame property -/

/-- Claim C2 counterexample: `update_map_file` does not leave every
non-marker input line byte-identical.  A line with trailing whitespace is
rstripped, and a whitespace-only line is dropped entirely: here the
unrelated input lines `"hello "` and `" "` do not occur in the output at
all. -/
theorem c2_frame_counterexample :
    isUnrelatedLine "hello " = true ∧
    "hello " ∈ (["hello ", " "] : List String) ∧
    "hello " ∉ update_map_lines false "V.Blackmarket|1 2 3|0 0 0" none
      ["hello ", " "] ∧
    isUnrelatedLine " " = true ∧
    " " ∈ (["hello ", " "] : List String) ∧
    " " ∉ update_map_lines false "V.Blackmarket|1 2 3|0 0 0" none
      ["hello ", " "] := by decide

theorem map_update_loop_filter (vehEnabled : Bool) (nv : String)
    (nveh : Option String)
    (hnv : strIn ".Blackmarket|" nv = true)
    (hveh : ∀ s, nveh = some s → strIn ".Blackmarket_Vehicles|" s = true) :
    ∀ ls : List String,
      ((map_update_loop vehEnabled nv nveh ls).1.filter isUnrelatedLine) =
        ls.filter (fun l => strNonBlank l && isUnrelatedLine l) := by
  intro ls
  induction ls with
  | nil => rfl
  | cons l t ih =>
      by_cases hb : strNonBlank l = true
      · by_cases hv : isVendingLine l = true
        · have h1 : strIn ".Blackmarket|" l = true := by
            have hv2 := hv
            simp only [isVendingLine, Bool.and_eq_true] at hv2
            exact hv2.1
          have hlu : isUnrelatedLine l = false := by
            simp [isUnrelatedLine, h1]
          have hnvu : isUnrelatedLine nv = false := by
            simp [isUnrelatedLine, hnv]
          simp [map_update_loop, hb, hv, List.filter_cons, hlu, hnvu, ih]
        · by_cases hw : isVehicleLine l = true
          · have hlu : isUnrelatedLine l = false := by
              unfold isVehicleLine at hw
              simp [isUnrelatedLine, hw]
            by_cases he : (vehEnabled && optStrTruthy nveh) = true
            · obtain ⟨hve, hot⟩ : vehEnabled = true ∧ optStrTruthy nveh = true := by
                simpa [Bool.and_eq_true] using he
              cases hn : nveh with
              | none => rw [hn] at hot; simp [optStrTruthy] at hot
              | some s =>
                  have hsu : isUnrelatedLine s = false := by
                    simp [isUnrelatedLine, hveh s hn]
                  rw [hn] at hot
                  rw [hve, hn] at ih
                  simp [map_update_loop, hb, hv, hw, hve, hot, hn,
                    List.filter_cons, hlu, hsu, ih]
            · simp [map_update_loop, hb, hv, hw, he, List.filter_cons, hlu, ih]
          · have hveq : strIn ".Blackmarket_Vehicles|" l = false := by
              unfold isVehicleLine at hw
              exact Bool.not_eq_true _ |>.mp hw
            have h1 : strIn ".Blackmarket|" l = false := by
              unfold isVendingLine at hv
              cases hx : strIn ".Blackmarket|" l with
              | false => rfl
              | true => exact absurd (by rw [hx, hveq]; rfl) hv
            have hlu : isUnrelatedLine l = true := by
              simp [isUnrelatedLine, h1, hveq]
            simp [map_update_loop, hb, hv, hw, List.filter_cons, hlu, ih]
      · have hb' : strNonBlank l = false := Bool.not_eq_true _ |>.mp hb
        simp [map_update_loop, hb', List.filter_cons, ih]

/-- Claim C2 (amended): the map render is not byte-identical on unrelated
lines; instead, for every replacement vending line carrying the vending
marker and every replacement vehicle line carrying the vehicle marker,
the unrelated lines of the output are exactly the `rstrip`ped,
non-whitespace-only unrelated input lines, in input order.  (Unrelated
lines lose trailing whitespace and whitespace-only lines are dropped;
everything else about them is preserved, as is their ordering.) -/
theorem c2_frame_up_to_rstrip (vehEnabled : Bool) (nv : String)
    (nveh : Option String) (lines : List String)
    (hnv : strIn ".Blackmarket|" nv = true)
    (hveh : ∀ s, nveh = some s → strIn ".Blackmarket_Vehicles|" s = true) :
    (update_map_lines vehEnabled nv nveh lines).filter isUnrelatedLine =
      (lines.map pyRstrip).filter (fun l => strNonBlank l && isUnrelatedLine l) := by
  unfold update_map_lines
  rw [List.filter_append, List.filter_append]
  rw [map_update_loop_filter vehEnabled nv nveh hnv hveh (lines.map pyRstrip)]
  have hB : (List.filter isUnrelatedLine
      (if !(map_update_loop vehEnabled nv nveh (lines.map pyRstrip)).2.1 then
        [nv] else [])) = [] := by
    by_cases hcond :
        (!(map_update_loop vehEnabled nv nveh (lines.map pyRstrip)).2.1) = true
    · rw [if_pos hcond]
      simp [List.filter, isUnrelatedLine, hnv]
    · rw [if_neg hcond]
      rfl
  have hC : (List.filter isUnrelatedLine
      (if vehEnabled &&
          !(map_update_loop vehEnabled nv nveh (lines.map pyRstrip)).2.2 &&
          optStrTruthy nveh then [nveh.getD ""] else [])) = [] := by
    by_cases hcond : (vehEnabled &&
        !(map_update_loop vehEnabled nv nveh (lines.map pyRstrip)).2.2 &&
        optStrTruthy nveh) = true
    · rw [if_pos hcond]
      have ht : optStrTruthy nveh = true := by
        simp only [Bool.and_eq_true] at hcond
        exact hcond.2
      cases hn : nveh with
      | none => rw [hn] at ht; simp [optStrTruthy] at ht
      | some s =>
          simp [hn, List.filter, isUnrelatedLine, hveh s hn]
    · rw [if_neg hcond]
      rfl
  rw [hB, hC]
  simp

/-- Concrete instance of the amended C2: an unrelated line with trailing
whitespace survives rstripped, and the marker lines are replaced. -/
theorem c2_frame_up_to_rstrip_witness :
    (update_map_lines false "V.Blackmarket|1 2 3|0 0 0" none
        ["hello ", "x.Blackmarket|9 9 9|0 0 0"]).filter isUnrelatedLine =
      ((["hello ", "x.Blackmarket|9 9 9|0 0 0"].map pyRstrip).filter
        (fun l => strNonBlank l && isUnrelatedLine l)) :=
  c2_frame_up_to_rstrip false "V.Blackmarket|1 2 3|0 0 0" none
    ["hello ", "x.Blackmarket|9 9 9|0 0 0"] (by decide)
    (fun s hs => Option.noConfusion hs)

/-! ## Claim C6: validator robustness (code bug) -/

/-- Claim C6 is violated by the code: on the mapping document
`{"servers": ["a"]}` — wrongly typed but exactly the kind of malformed
input the validator is designed to check, and one its own
`_validate_top_level_structure` even type-checks — `validate_config`
calls `servers.items()` on a list and dies with an uncaught
`AttributeError` instead of failing with the aggregated validation
report. -/
theorem c6_validator_crashes_on_list_servers :
    validate_config [("servers", J.arr [J.str "a"])] (fun _ => false) =
      ValidateOutcome.crash
        "AttributeError: 'list' object has no attribute 'items'" := rfl

/-! ## Claim C7: vehicle-enablement is all-or-nothing -/

theorem get?_mem_enumFrom {α : Type _} :
    ∀ (l : List α) (n i : Nat) (a : α),
      l.get? i = some a → (n + i, a) ∈ l.enumFrom n := by
  intro l
  induction l with
  | nil => intro n i a h; simp [List.get?] at h
  | cons x t ih =>
      intro n i a h
      cases i with
      | zero =>
          have hx : x = a := by simpa using h
          simp [List.enumFrom, hx]
      | succ j =>
          have hj : t.get? j = some a := by simpa using h
          have := ih (n + 1) j a hj
          have he : n + (j + 1) = n + 1 + j := by omega
          rw [he]
          exact List.mem_cons_of_mem _ this

theorem get?_mem_enum {α : Type _} (l : List α) (i : Nat) (a : α)
    (h : l.get? i = some a) : (i, a) ∈ l.enum := by
  have := get?_mem_enumFrom l 0 i a h
  simpa [List.enum] using this

theorem position_entry_checks_missing (fs : String → Bool) (i : Nat)
    (d : PyDict) (f : String)
    (hf : f ∈ ["name", "Blackmarket_Vending_Classname",
      "Blackmarket_Vending_Coordinates", "Blackmarket_Vehicle_Classname",
      "Blackmarket_Vehicle_Coordinates"])
    (hk : dictHasKey d f = false) :
    position_missing_msg i d f ∈ (position_entry_checks true fs i (J.obj d)).1 := by
  simp only [position_entry_checks, if_true]
  refine List.mem_append.mpr (Or.inl ?_)
  refine List.mem_append.mpr (Or.inl ?_)
  refine List.mem_append.mpr (Or.inl ?_)
  refine List.mem_append.mpr (Or.inl ?_)
  refine List.mem_flatMap.mpr ⟨f, ?_, ?_⟩
  · simpa using hf
  · simp [hk]

theorem validate_positions_missing_vehicle (ps : List J) (fs : String → Bool)
    (hv : ps.any hasVehicleData = true) (i : Nat) (d : PyDict)
    (hi : ps.get? i = some (J.obj d)) :
    (dictHasKey d "Blackmarket_Vehicle_Classname" = false →
      position_missing_msg i d "Blackmarket_Vehicle_Classname"
        ∈ (validate_positions (J.arr ps) fs).1) ∧
    (dictHasKey d "Blackmarket_Vehicle_Coordinates" = false →
      position_missing_msg i d "Blackmarket_Vehicle_Coordinates"
        ∈ (validate_positions (J.arr ps) fs).1) := by
  have hne : ps ≠ [] := by
    intro h
    rw [h] at hi
    simp at hi
  have htr : pyTruthy (J.arr ps) = true := by
    cases ps with
    | nil => exact absurd rfl hne
    | cons a t => rfl
  have hmem : (i, J.obj d) ∈ ps.enum := get?_mem_enum ps i _ hi
  constructor <;> intro hk
  · simp only [validate_positions, htr, Bool.not_true, Bool.false_eq_true,
      if_false, hv]
    refine List.mem_flatMap.mpr ⟨position_entry_checks true fs i (J.obj d), ?_, ?_⟩
    · exact List.mem_map.mpr ⟨(i, J.obj d), hmem, rfl⟩
    · exact position_entry_checks_missing fs i d _ (by simp) hk
  · simp only [validate_positions, htr, Bool.not_true, Bool.false_eq_true,
      if_false, hv]
    refine List.mem_flatMap.mpr ⟨position_entry_checks true fs i (J.obj d), ?_, ?_⟩
    · exact List.mem_map.mpr ⟨(i, J.obj d), hmem, rfl⟩
    · exact position_entry_checks_missing fs i d _ (by simp) hk

/-- Claim C7: for every configuration (with the four sections present and
well-container-typed) whose position list has some position carrying a
vehicle field and some dictionary position missing part of the vehicle
field set, validation fails with the aggregated error report, and that
report contains, for every position missing a required vehicle field, the
explicit per-position error naming it. -/
theorem c7_vehicle_all_or_nothing (srv gs ss : PyDict) (ps : List J)
    (fs : String → Bool)
    (hv : ps.any hasVehicleData = true)
    (hm : ∃ i d, ps.get? i = some (J.obj d) ∧
      (dictHasKey d "Blackmarket_Vehicle_Classname" = false ∨
       dictHasKey d "Blackmarket_Vehicle_Coordinates" = false)) :
    ∃ errs warns,
      validate_config (mkConfig srv gs ss ps) fs =
        ValidateOutcome.invalid errs warns ∧
      ∀ i d, ps.get? i = some (J.obj d) →
        (dictHasKey d "Blackmarket_Vehicle_Classname" = false →
          position_missing_msg i d "Blackmarket_Vehicle_Classname" ∈ errs) ∧
        (dictHasKey d "Blackmarket_Vehicle_Coordinates" = false →
          position_missing_msg i d "Blackmarket_Vehicle_Coordinates" ∈ errs) := by
  obtain ⟨r1, hr1⟩ : ∃ r, validate_servers (J.obj srv) fs = Except.ok r := by
    cases h : pyTruthy (J.obj srv) with
    | false => exact ⟨_, by unfold validate_servers; rw [h]; rfl⟩
    | true => exact ⟨_, by unfold validate_servers; rw [h]; rfl⟩
  have hsec : validate_sections (mkConfig srv gs ss ps) fs =
      Except.ok
        ((validate_top_level_structure (mkConfig srv gs ss ps)).1 ++ r1.1 ++
            (global_settings_checks gs).1 ++ (scheduler_settings_checks ss).1 ++
            (validate_positions (J.arr ps) fs).1,
          (validate_top_level_structure (mkConfig srv gs ss ps)).2 ++ r1.2 ++
            (global_settings_checks gs).2 ++ (scheduler_settings_checks ss).2 ++
            (validate_positions (J.arr ps) fs).2) := by
    unfold validate_sections
    have hl1 : dictLookup (mkConfig srv gs ss ps) "servers" =
        some (J.obj srv) := rfl
    have hl2 : dictLookup (mkConfig srv gs ss ps) "global_settings" =
        some (J.obj gs) := rfl
    have hl3 : dictLookup (mkConfig srv gs ss ps) "scheduler_settings" =
        some (J.obj ss) := rfl
    have hl4 : dictLookup (mkConfig srv gs ss ps) "positions" =
        some (J.arr ps) := rfl
    rw [hl1, hl2, hl3, hl4]
    dsimp only
    rw [hr1]
    rfl
  set E := (validate_top_level_structure (mkConfig srv gs ss ps)).1 ++ r1.1 ++
    (global_settings_checks gs).1 ++ (scheduler_settings_checks ss).1 ++
    (validate_positions (J.arr ps) fs).1 with hE
  set W := (validate_top_level_structure (mkConfig srv gs ss ps)).2 ++ r1.2 ++
    (global_settings_checks gs).2 ++ (scheduler_settings_checks ss).2 ++
    (validate_positions (J.arr ps) fs).2 with hW
  have hmemE : ∀ i d, ps.get? i = some (J.obj d) →
      (dictHasKey d "Blackmarket_Vehicle_Classname" = false →
        position_missing_msg i d "Blackmarket_Vehicle_Classname" ∈ E) ∧
      (dictHasKey d "Blackmarket_Vehicle_Coordinates" = false →
        position_missing_msg i d "Blackmarket_Vehicle_Coordinates" ∈ E) := by
    intro i d hid
    constructor <;> intro hk
    · exact List.mem_append.mpr (Or.inr
        ((validate_positions_missing_vehicle ps fs hv i d hid).1 hk))
    · exact List.mem_append.mpr (Or.inr
        ((validate_positions_missing_vehicle ps fs hv i d hid).2 hk))
  have hEne : E.isEmpty = false := by
    obtain ⟨i0, d0, hget, hor⟩ := hm
    have hx : ∃ m, m ∈ E := by
      cases hor with
      | inl h => exact ⟨_, (hmemE i0 d0 hget).1 h⟩
      | inr h => exact ⟨_, (hmemE i0 d0 hget).2 h⟩
    obtain ⟨m, hmE⟩ := hx
    cases hE' : E with
    | nil => rw [hE'] at hmE; simp at hmE
    | cons a t => rfl
  refine ⟨E, W, ?_, hmemE⟩
  unfold validate_config
  rw [hsec]
  simp [hEne]

/-- Concrete instance of C7: position 0 carries a vehicle classname,
position 1 carries neither vehicle field; validation reports both missing
fields for position 1. -/
theorem c7_vehicle_all_or_nothing_witness :
    ∃ errs warns,
      validate_config (mkConfig [] [] []
          [J.obj [("name", J.str "A"), ("Blackmarket_Vehicle_Classname", J.str "C")],
           J.obj [("name", J.str "B")]]) (fun _ => false) =
        ValidateOutcome.invalid errs warns ∧
      ∀ i d, [J.obj [("name", J.str "A"),
            ("Blackmarket_Vehicle_Classname", J.str "C")],
          J.obj [("name", J.str "B")]].get? i = some (J.obj d) →
        (dictHasKey d "Blackmarket_Vehicle_Classname" = false →
          position_missing_msg i d "Blackmarket_Vehicle_Classname" ∈ errs) ∧
        (dictHasKey d "Blackmarket_Vehicle_Coordinates" = false →
          position_missing_msg i d "Blackmarket_Vehicle_Coordinates" ∈ errs) :=
  c7_vehicle_all_or_nothing [] [] []
    [J.obj [("name", J.str "A"), ("Blackmarket_Vehicle_Classname", J.str "C")],
     J.obj [("name", J.str "B")]] (fun _ => false) (by decide)
    ⟨1, [("name", J.str "B")], rfl, Or.inl (by decide)⟩

end RotatingBM
